import Mathlib

/-!
The gue adapter: the pgx/v4 driver adapter

A shallow embedding of `adapter/db.go` (sentinel errors and capability
interfaces) and `adapter/pgxv4/db.go` (the binding of those interfaces to
github.com/jackc/pgx/v4), followed by the properties of the adapter.

Modelling conventions

* A Go `error` is `Option Err`: `none` is the nil error. Error values are
  compared by identity, so every sentinel is its own constructor; the two
  no-rows sentinels carry the same message text in Go and are nevertheless
  different values.
* The driver (pgx, pgxpool, pgconn) is an external library. A driver object
  is a record of its methods, each a transformer of a world state `σ`
  (database server, pool, connections, caller memory). The adapter code is
  parametric in those records, exactly as the Go code is parametric in the
  driver objects it wraps.
* A pointer or interface field of an adapter struct is an `Option`: `none`
  is Go's nil. Calling a method through nil panics; a failed type assertion
  panics. An adapter method therefore returns `Except Panic (result × σ)`.
  Adapter struct pointers themselves are taken to be non-nil: they are only
  ever created by `&T{...}` inside the package.
-/

/-! ## Go-level basics -/

/-- Go error values, by identity. `driver n` stands for any error value other
than the four sentinels (connectivity loss, constraint violation, deadline
exceeded, ...). -/
inductive Err where
  | adapterNoRows
  | adapterTxClosed
  | pgxNoRows
  | pgxTxClosed
  | driver (id : Nat)
  deriving DecidableEq, Repr

/-- A run-time panic of the Go program. -/
inductive Panic where
  | nilDereference
  | typeAssertion
  deriving DecidableEq, Repr

/-- A `context.Context` value handed through to the driver. -/
structure Context where
  id : Nat
  deriving DecidableEq, Repr

/-- An `interface{}` statement argument. -/
inductive Value where
  | null
  | int (i : Int)
  | text (s : String)
  deriving DecidableEq, Repr

/-- A destination pointer given to `Scan`; the scanned value is written into
the world state at that address. -/
structure Dest where
  addr : Nat
  deriving DecidableEq, Repr

/-- Conversion of a mathematical integer to Go `int32` (two's complement
wrap-around), used for arithmetic on `int32` operands. -/
def int32 (x : Int) : Int :=
  (x + 2147483648) % 4294967296 - 2147483648

/-- The value is representable as a Go `int32`. -/
def IsInt32 (x : Int) : Prop :=
  -2147483648 ≤ x ∧ x < 2147483648

instance (x : Int) : Decidable (IsInt32 x) := by
  unfold IsInt32; infer_instance

/-! ## package adapter (`adapter/db.go`) -/

namespace adapter

/-- The sentinel `adapter.ErrNoRows = errors.New("no rows in result set")`. -/
abbrev ErrNoRows : Err := Err.adapterNoRows

/-- The sentinel `adapter.ErrTxClosed = errors.New("tx is closed")`. -/
abbrev ErrTxClosed : Err := Err.adapterTxClosed

/-- Modelled from the spec: the declaration of `adapter.ConnPoolStat` is not
among the sources (only its use in `ConnPool.Stat` is). The three `int`
fields are the ones named by the struct literal in `ConnPool.Stat` and by the
spec's list of ConnPoolStat fields. -/
structure ConnPoolStat where
  MaxConnections : Int
  CurrentConnections : Int
  AvailableConnections : Int
  deriving DecidableEq, Repr

end adapter

/-! ## The driver, as the adapter sees it -/

namespace pgx

/-- The driver sentinel `pgx.ErrNoRows`. -/
abbrev ErrNoRows : Err := Err.pgxNoRows

/-- The driver sentinel `pgx.ErrTxClosed`. -/
abbrev ErrTxClosed : Err := Err.pgxTxClosed

end pgx

namespace pgconn

/-- A `pgconn.CommandTag` value: the status text of the command together with
the count its own `RowsAffected()` method (an `int64`) reports for it. -/
structure CommandTag where
  text : String
  RowsAffected : Int
  deriving DecidableEq, Repr

end pgconn

namespace pgx

/-- The interface `pgx.Row`: its one method, `Scan(dest...) error`. -/
structure Row (σ : Type) where
  Scan : List Dest → σ → Option Err × σ

/-- The interface `pgx.Tx`, restricted to the methods the adapter calls.
`Exec` returns `(pgconn.CommandTag, error)`. -/
structure Tx (σ : Type) where
  Exec : Context → String → List Value → σ → (pgconn.CommandTag × Option Err) × σ
  QueryRow : Context → String → List Value → σ → Row σ × σ
  Rollback : Context → σ → Option Err × σ
  Commit : Context → σ → Option Err × σ

/-- The methods of `*pgx.Conn` the adapter calls. `Begin` returns
`(pgx.Tx, error)`; the transaction is nil (`none`) when it fails. -/
structure Conn (σ : Type) where
  Exec : Context → String → List Value → σ → (pgconn.CommandTag × Option Err) × σ
  QueryRow : Context → String → List Value → σ → Row σ × σ
  Begin : Context → σ → (Option (Tx σ) × Option Err) × σ
  Close : Context → σ → Option Err × σ

end pgx

namespace pgxpool

/-- The methods of `*pgxpool.Conn` the adapter calls. `Release()` returns
nothing. -/
structure Conn (σ : Type) where
  Exec : Context → String → List Value → σ → (pgconn.CommandTag × Option Err) × σ
  QueryRow : Context → String → List Value → σ → pgx.Row σ × σ
  Begin : Context → σ → (Option (pgx.Tx σ) × Option Err) × σ
  Release : σ → σ

/-- A `*pgxpool.Stat` snapshot: the results of its `int32` accessors.
`AcquiredConns` (connections checked out and not yet released) is not read by
the adapter; it is the driver's own count of busy connections. -/
structure Stat where
  MaxConns : Int
  TotalConns : Int
  IdleConns : Int
  AcquiredConns : Int
  deriving DecidableEq, Repr

/-- The methods of `*pgxpool.Pool` the adapter calls. `Acquire` returns
`(*pgxpool.Conn, error)`; the connection is nil (`none`) when it fails. -/
structure Pool (σ : Type) where
  Exec : Context → String → List Value → σ → (pgconn.CommandTag × Option Err) × σ
  QueryRow : Context → String → List Value → σ → pgx.Row σ × σ
  Begin : Context → σ → (Option (pgx.Tx σ) × Option Err) × σ
  Acquire : Context → σ → (Option (Conn σ) × Option Err) × σ
  Stat : σ → Stat
  Close : σ → σ

end pgxpool

/-! ## package pgxv4 (`adapter/pgxv4/db.go`) -/

namespace pgxv4

variable {σ : Type}

/-- The struct `Row` wrapping a `pgx.Row`. -/
structure Row (σ : Type) where
  row : Option (pgx.Row σ)

/-- The method `(*Row).Scan`. -/
def Row.Scan (r : Row σ) (dest : List Dest) (s : σ) : Except Panic (Option Err × σ) :=
  match r.row with
  | none => .error Panic.nilDereference
  | some row =>
    let out := row.Scan dest s
    if out.1 = some pgx.ErrNoRows then
      .ok (some adapter.ErrNoRows, out.2)
    else
      .ok (out.1, out.2)

/-- The struct `CommandTag` wrapping a `pgconn.CommandTag`. -/
structure CommandTag where
  ct : pgconn.CommandTag
  deriving DecidableEq, Repr

/-- The method `CommandTag.RowsAffected`. -/
def CommandTag.RowsAffected (ct : CommandTag) : Int :=
  ct.ct.RowsAffected

/-- The struct `Tx` wrapping a `pgx.Tx`. -/
structure Tx (σ : Type) where
  tx : Option (pgx.Tx σ)

/-- The method `(*Tx).Exec`. -/
def Tx.Exec (tx : Tx σ) (ctx : Context) (sql : String) (arguments : List Value) (s : σ) :
    Except Panic ((CommandTag × Option Err) × σ) :=
  match tx.tx with
  | none => .error Panic.nilDereference
  | some t =>
    let out := t.Exec ctx sql arguments s
    .ok ((CommandTag.mk out.1.1, out.1.2), out.2)

/-- The method `(*Tx).QueryRow`. -/
def Tx.QueryRow (tx : Tx σ) (ctx : Context) (sql : String) (args : List Value) (s : σ) :
    Except Panic (Row σ × σ) :=
  match tx.tx with
  | none => .error Panic.nilDereference
  | some t =>
    let out := t.QueryRow ctx sql args s
    .ok (Row.mk (some out.1), out.2)

/-- The method `(*Tx).Rollback`. -/
def Tx.Rollback (tx : Tx σ) (ctx : Context) (s : σ) : Except Panic (Option Err × σ) :=
  match tx.tx with
  | none => .error Panic.nilDereference
  | some t =>
    let out := t.Rollback ctx s
    if out.1 = some pgx.ErrTxClosed then
      .ok (some adapter.ErrTxClosed, out.2)
    else
      .ok (out.1, out.2)

/-- The method `(*Tx).Commit`. -/
def Tx.Commit (tx : Tx σ) (ctx : Context) (s : σ) : Except Panic (Option Err × σ) :=
  match tx.tx with
  | none => .error Panic.nilDereference
  | some t => .ok (t.Commit ctx s)

/-- The struct `Conn` wrapping a `*pgx.Conn`. -/
structure Conn (σ : Type) where
  conn : Option (pgx.Conn σ)

/-- The method `(*Conn).Exec`. -/
def Conn.Exec (c : Conn σ) (ctx : Context) (sql : String) (arguments : List Value) (s : σ) :
    Except Panic ((CommandTag × Option Err) × σ) :=
  match c.conn with
  | none => .error Panic.nilDereference
  | some d =>
    let out := d.Exec ctx sql arguments s
    .ok ((CommandTag.mk out.1.1, out.1.2), out.2)

/-- The method `(*Conn).QueryRow`. -/
def Conn.QueryRow (c : Conn σ) (ctx : Context) (sql : String) (args : List Value) (s : σ) :
    Except Panic (Row σ × σ) :=
  match c.conn with
  | none => .error Panic.nilDereference
  | some d =>
    let out := d.QueryRow ctx sql args s
    .ok (Row.mk (some out.1), out.2)

/-- The method `(*Conn).Begin`. -/
def Conn.Begin (c : Conn σ) (ctx : Context) (s : σ) : Except Panic ((Tx σ × Option Err) × σ) :=
  match c.conn with
  | none => .error Panic.nilDereference
  | some d =>
    let out := d.Begin ctx s
    .ok ((Tx.mk out.1.1, out.1.2), out.2)

/-- The method `(*Conn).Close`. -/
def Conn.Close (c : Conn σ) (ctx : Context) (s : σ) : Except Panic (Option Err × σ) :=
  match c.conn with
  | none => .error Panic.nilDereference
  | some d => .ok (d.Close ctx s)

/-- The struct `PoolConn` wrapping a `*pgxpool.Conn`. -/
structure PoolConn (σ : Type) where
  conn : Option (pgxpool.Conn σ)

/-- The method `(*PoolConn).Exec`. -/
def PoolConn.Exec (c : PoolConn σ) (ctx : Context) (sql : String) (arguments : List Value)
    (s : σ) : Except Panic ((CommandTag × Option Err) × σ) :=
  match c.conn with
  | none => .error Panic.nilDereference
  | some d =>
    let out := d.Exec ctx sql arguments s
    .ok ((CommandTag.mk out.1.1, out.1.2), out.2)

/-- The method `(*PoolConn).QueryRow`. -/
def PoolConn.QueryRow (c : PoolConn σ) (ctx : Context) (sql : String) (args : List Value)
    (s : σ) : Except Panic (Row σ × σ) :=
  match c.conn with
  | none => .error Panic.nilDereference
  | some d =>
    let out := d.QueryRow ctx sql args s
    .ok (Row.mk (some out.1), out.2)

/-- The method `(*PoolConn).Begin`. -/
def PoolConn.Begin (c : PoolConn σ) (ctx : Context) (s : σ) :
    Except Panic ((Tx σ × Option Err) × σ) :=
  match c.conn with
  | none => .error Panic.nilDereference
  | some d =>
    let out := d.Begin ctx s
    .ok ((Tx.mk out.1.1, out.1.2), out.2)

/-- The method `(*PoolConn).Close`: the context is not used. -/
def PoolConn.Close (c : PoolConn σ) (_ctx : Context) (s : σ) : Except Panic (Option Err × σ) :=
  match c.conn with
  | none => .error Panic.nilDereference
  | some d => .ok (none, d.Release s)

/-- Modelled from the spec: the interface `adapter.Conn` is declared in a part
of package adapter that is not among the sources. A value of the interface is
nil, or holds one of the two implementations of this package (the spec's "two
distinct types/variants behind the same Conn capability"), or a value of some
other implementing type, known only by its type name. -/
inductive AdapterConn (σ : Type) where
  | nil
  | conn (c : Conn σ)
  | poolConn (c : PoolConn σ)
  | foreign (typeName : String)

/-- The constructor `NewConn`. -/
def NewConn (conn : Option (pgx.Conn σ)) : AdapterConn σ :=
  AdapterConn.conn (Conn.mk conn)

/-- The struct `ConnPool` wrapping a `*pgxpool.Pool`. -/
structure ConnPool (σ : Type) where
  pool : Option (pgxpool.Pool σ)

/-- The constructor `NewConnPool`. -/
def NewConnPool (pool : Option (pgxpool.Pool σ)) : ConnPool σ :=
  ConnPool.mk pool

/-- The method `(*ConnPool).Exec`. -/
def ConnPool.Exec (c : ConnPool σ) (ctx : Context) (sql : String) (arguments : List Value)
    (s : σ) : Except Panic ((CommandTag × Option Err) × σ) :=
  match c.pool with
  | none => .error Panic.nilDereference
  | some p =>
    let out := p.Exec ctx sql arguments s
    .ok ((CommandTag.mk out.1.1, out.1.2), out.2)

/-- The method `(*ConnPool).QueryRow`. -/
def ConnPool.QueryRow (c : ConnPool σ) (ctx : Context) (sql : String) (args : List Value)
    (s : σ) : Except Panic (Row σ × σ) :=
  match c.pool with
  | none => .error Panic.nilDereference
  | some p =>
    let out := p.QueryRow ctx sql args s
    .ok (Row.mk (some out.1), out.2)

/-- The method `(*ConnPool).Begin`. -/
def ConnPool.Begin (c : ConnPool σ) (ctx : Context) (s : σ) :
    Except Panic ((Tx σ × Option Err) × σ) :=
  match c.pool with
  | none => .error Panic.nilDereference
  | some p =>
    let out := p.Begin ctx s
    .ok ((Tx.mk out.1.1, out.1.2), out.2)

/-- The method `(*ConnPool).Acquire`. -/
def ConnPool.Acquire (c : ConnPool σ) (ctx : Context) (s : σ) :
    Except Panic ((AdapterConn σ × Option Err) × σ) :=
  match c.pool with
  | none => .error Panic.nilDereference
  | some p =>
    let out := p.Acquire ctx s
    .ok ((AdapterConn.poolConn (PoolConn.mk out.1.1), out.1.2), out.2)

/-- The method `(*ConnPool).Release`: `conn.(*PoolConn).conn.Release()`. The
receiver is not used. -/
def ConnPool.Release (_c : ConnPool σ) (conn : AdapterConn σ) (s : σ) : Except Panic (Unit × σ) :=
  match conn with
  | AdapterConn.poolConn pc =>
    match pc.conn with
    | none => .error Panic.nilDereference
    | some d => .ok ((), d.Release s)
  | _ => .error Panic.typeAssertion

/-- The method `(*ConnPool).Stat`. The operands of the subtraction are
`int32`; every field is then widened to `int`. -/
def ConnPool.Stat (c : ConnPool σ) (s : σ) : Except Panic adapter.ConnPoolStat :=
  match c.pool with
  | none => .error Panic.nilDereference
  | some p =>
    let st := p.Stat s
    .ok (adapter.ConnPoolStat.mk st.MaxConns st.TotalConns (int32 (st.TotalConns - st.IdleConns)))

/-- The method `(*ConnPool).Close`. -/
def ConnPool.Close (c : ConnPool σ) (s : σ) : Except Panic (Unit × σ) :=
  match c.pool with
  | none => .error Panic.nilDereference
  | some p => .ok ((), p.Close s)

end pgxv4

/-! ## A scripted reference driver

The theorems below hold for every driver. To instantiate them, and to run the
adapter on concrete inputs, this section gives one small driver whose replies
are scripted by parameters. Its transaction handle follows the life cycle the
driver documents: open until the first `Commit` or `Rollback`, closed
afterwards, and once closed every call on it answers `pgx.ErrTxClosed`
without talking to the server. -/

namespace refdriver

/-- The world of the reference driver: the state of the one transaction
handle, whether the pool has been closed, and counters of what happened:
statements, commits and rollbacks sent to the server, `Release` calls on a
pooled connection, and physical connections terminated. -/
structure World where
  txClosed : Bool
  commits : Nat
  rollbacks : Nat
  statements : Nat
  releases : Nat
  terminations : Nat
  poolClosed : Bool
  deriving DecidableEq, Repr

/-- A fresh world: an open transaction handle, nothing sent yet. -/
def fresh : World :=
  World.mk false 0 0 0 0 0 false

/-- A quiet world: no transaction open, the pool open, nothing sent yet. -/
def quiet : World :=
  World.mk true 0 0 0 0 0 false

/-- A row whose `Scan` answers `reply`. -/
def row (reply : Option Err) : pgx.Row World :=
  pgx.Row.mk (fun _ w => (reply, w))

/-- A transaction handle. `tag` and `execReply` script a statement sent while
the handle is open, `scanReply` the row of a query, `endReply` the server's
answer to the physical commit or rollback. -/
def tx (tag : pgconn.CommandTag) (execReply scanReply endReply : Option Err) : pgx.Tx World where
  Exec := fun _ _ _ w =>
    if w.txClosed then ((pgconn.CommandTag.mk "" 0, some pgx.ErrTxClosed), w)
    else ((tag, execReply), { w with statements := w.statements + 1 })
  QueryRow := fun _ _ _ w =>
    if w.txClosed then (row (some pgx.ErrTxClosed), w)
    else (row scanReply, { w with statements := w.statements + 1 })
  Rollback := fun _ w =>
    if w.txClosed then (some pgx.ErrTxClosed, w)
    else (endReply, { w with txClosed := true, rollbacks := w.rollbacks + 1 })
  Commit := fun _ w =>
    if w.txClosed then (some pgx.ErrTxClosed, w)
    else (endReply, { w with txClosed := true, commits := w.commits + 1 })

/-- An unpooled connection. `beginReply` scripts `Begin` (on failure the
driver hands back a nil transaction), `closeReply` scripts `Close`. -/
def conn (tag : pgconn.CommandTag) (execReply scanReply beginReply closeReply : Option Err) :
    pgx.Conn World where
  Exec := fun _ _ _ w => ((tag, execReply), { w with statements := w.statements + 1 })
  QueryRow := fun _ _ _ w => (row scanReply, { w with statements := w.statements + 1 })
  Begin := fun _ w =>
    match beginReply with
    | none => ((some (tx tag execReply scanReply none), none), { w with txClosed := false })
    | some e => ((none, some e), w)
  Close := fun _ w => (closeReply, { w with terminations := w.terminations + 1 })

/-- A connection checked out of the pool. `Release` hands it back: the
physical connection is recycled when the pool is open and no transaction is
open on the connection, and it is destroyed (terminated) when the pool has
been closed or a transaction is still open. -/
def poolConn (tag : pgconn.CommandTag) (execReply scanReply beginReply : Option Err) :
    pgxpool.Conn World where
  Exec := fun _ _ _ w => ((tag, execReply), { w with statements := w.statements + 1 })
  QueryRow := fun _ _ _ w => (row scanReply, { w with statements := w.statements + 1 })
  Begin := fun _ w =>
    match beginReply with
    | none => ((some (tx tag execReply scanReply none), none), { w with txClosed := false })
    | some e => ((none, some e), w)
  Release := fun w =>
    if w.poolClosed || !w.txClosed then
      { w with releases := w.releases + 1, terminations := w.terminations + 1 }
    else
      { w with releases := w.releases + 1 }

/-- A pool reporting the statistics `st`. `acquireReply` scripts `Acquire` (on
failure the driver hands back a nil connection). -/
def pool (st : pgxpool.Stat) (tag : pgconn.CommandTag)
    (execReply scanReply beginReply acquireReply : Option Err) : pgxpool.Pool World where
  Exec := fun _ _ _ w => ((tag, execReply), { w with statements := w.statements + 1 })
  QueryRow := fun _ _ _ w => (row scanReply, { w with statements := w.statements + 1 })
  Begin := fun _ w =>
    match beginReply with
    | none => ((some (tx tag execReply scanReply none), none), { w with txClosed := false })
    | some e => ((none, some e), w)
  Acquire := fun _ w =>
    match acquireReply with
    | none => ((some (poolConn tag execReply scanReply beginReply), none), w)
    | some e => ((none, some e), w)
  Stat := fun _ => st
  Close := fun w => { w with poolClosed := true }

/-- The command tag of an `INSERT` of one row. -/
def insertOne : pgconn.CommandTag :=
  pgconn.CommandTag.mk "INSERT 0 1" 1

/-- The command tag of a statement without a row count. -/
def createTable : pgconn.CommandTag :=
  pgconn.CommandTag.mk "CREATE TABLE" 0

/-- A context value. -/
def ctx0 : Context :=
  Context.mk 0

/-- Some driver error other than the sentinels, say a lost connection. -/
def connLost : Err :=
  Err.driver 7

end refdriver

/-! ## Properties -/

open pgxv4

/-- C1: when the wrapped driver row's Scan answers the driver's no-rows
sentinel, Row.Scan returns exactly adapter.ErrNoRows (with the driver's state
change), for every list of destinations, and it does not return the driver's
own pgx.ErrNoRows. -/
theorem C1_Row_Scan_no_rows {σ : Type} (row : pgx.Row σ) (dest : List Dest) (s : σ)
    (h : (row.Scan dest s).1 = some pgx.ErrNoRows) :
    Row.Scan (Row.mk (some row)) dest s = Except.ok (some adapter.ErrNoRows, (row.Scan dest s).2) ∧
    (∀ s1, Row.Scan (Row.mk (some row)) dest s ≠ Except.ok (some pgx.ErrNoRows, s1)) := by
  have hs : Row.Scan (Row.mk (some row)) dest s
      = Except.ok (some adapter.ErrNoRows, (row.Scan dest s).2) := by
    simp [Row.Scan, h]
  refine ⟨hs, ?_⟩
  intro s1 hEq
  rw [hs] at hEq
  injection hEq with hPair
  injection hPair with hErr _
  exact absurd hErr (by decide)

/-- Instance of C1 on the reference driver: a row whose Scan answers
pgx.ErrNoRows, scanned into two destinations. -/
theorem C1_Row_Scan_no_rows_witness :
    ((refdriver.row (some pgx.ErrNoRows)).Scan [Dest.mk 0, Dest.mk 1] refdriver.fresh).1
        = some pgx.ErrNoRows ∧
    (Row.Scan (Row.mk (some (refdriver.row (some pgx.ErrNoRows)))) [Dest.mk 0, Dest.mk 1]
        refdriver.fresh
      = Except.ok (some adapter.ErrNoRows,
          ((refdriver.row (some pgx.ErrNoRows)).Scan [Dest.mk 0, Dest.mk 1] refdriver.fresh).2) ∧
     (∀ s1, Row.Scan (Row.mk (some (refdriver.row (some pgx.ErrNoRows))))
        [Dest.mk 0, Dest.mk 1] refdriver.fresh ≠ Except.ok (some pgx.ErrNoRows, s1))) :=
  ⟨rfl, C1_Row_Scan_no_rows (refdriver.row (some pgx.ErrNoRows)) [Dest.mk 0, Dest.mk 1]
    refdriver.fresh rfl⟩

/-- The reference transaction handle answers pgx.ErrTxClosed, and changes
nothing, once it is closed. -/
theorem refdriver.tx_Rollback_closed (tag : pgconn.CommandTag) (e1 e2 e3 : Option Err)
    (ctx : Context) (w : refdriver.World) (h : w.txClosed = true) :
    (refdriver.tx tag e1 e2 e3).Rollback ctx w = (some pgx.ErrTxClosed, w) := by
  simp [refdriver.tx, h]

/-- The reference transaction handle is closed after a Commit that reports
success. -/
theorem refdriver.tx_Commit_closes (tag : pgconn.CommandTag) (e1 e2 e3 : Option Err)
    (ctx : Context) (w : refdriver.World)
    (h : ((refdriver.tx tag e1 e2 e3).Commit ctx w).1 = none) :
    ((refdriver.tx tag e1 e2 e3).Commit ctx w).2.txClosed = true := by
  cases hc : w.txClosed
  · simp [refdriver.tx, hc]
  · simp [refdriver.tx, hc] at h

/-- The reference transaction handle is closed after every Rollback. -/
theorem refdriver.tx_Rollback_closes (tag : pgconn.CommandTag) (e1 e2 e3 : Option Err)
    (ctx : Context) (w : refdriver.World) :
    ((refdriver.tx tag e1 e2 e3).Rollback ctx w).2.txClosed = true := by
  cases hc : w.txClosed <;> simp [refdriver.tx, hc]

/-- C2: let the driver transaction be a state machine with a set of closed
(terminal) states: a Commit that reports success ends in a closed state, every
Rollback ends in a closed state, and in a closed state the driver's Rollback
answers pgx.ErrTxClosed and leaves the state as it is. Then Tx.Rollback on a
closed transaction does not panic, returns exactly adapter.ErrTxClosed and
leaves the state unchanged (so no second physical rollback happens); this is
so in every closed state, after a prior successful Tx.Commit, and after a
prior Tx.Rollback whatever that one returned. -/
theorem C2_Rollback_on_closed_tx {σ : Type} (t : pgx.Tx σ) (closed : σ → Prop)
    (hClosed : ∀ ctx s, closed s → t.Rollback ctx s = (some pgx.ErrTxClosed, s))
    (hCommit : ∀ ctx s, (t.Commit ctx s).1 = none → closed (t.Commit ctx s).2)
    (hRollback : ∀ ctx s, closed (t.Rollback ctx s).2) :
    (∀ ctx s, closed s →
      Tx.Rollback (Tx.mk (some t)) ctx s = Except.ok (some adapter.ErrTxClosed, s)) ∧
    (∀ ctx ctx1 s s1, Tx.Commit (Tx.mk (some t)) ctx s = Except.ok (none, s1) →
      Tx.Rollback (Tx.mk (some t)) ctx1 s1 = Except.ok (some adapter.ErrTxClosed, s1)) ∧
    (∀ ctx ctx1 s e s1, Tx.Rollback (Tx.mk (some t)) ctx s = Except.ok (e, s1) →
      Tx.Rollback (Tx.mk (some t)) ctx1 s1 = Except.ok (some adapter.ErrTxClosed, s1)) := by
  have key : ∀ ctx s, closed s →
      Tx.Rollback (Tx.mk (some t)) ctx s = Except.ok (some adapter.ErrTxClosed, s) := by
    intro ctx s hs
    simp [Tx.Rollback, hClosed ctx s hs]
  refine ⟨key, ?_, ?_⟩
  · intro ctx ctx1 s s1 hc
    apply key
    have hEq : t.Commit ctx s = (none, s1) := by
      simpa [Tx.Commit] using hc
    have h2 := hCommit ctx s (by rw [hEq])
    rw [hEq] at h2
    exact h2
  · intro ctx ctx1 s e s1 hr
    apply key
    have hState : (t.Rollback ctx s).2 = s1 := by
      unfold Tx.Rollback at hr
      simp only at hr
      split at hr
      · injection hr with hp
        exact (Prod.mk.inj hp).2
      · injection hr with hp
        exact (Prod.mk.inj hp).2
    rw [← hState]
    exact hRollback ctx s

/-- Instance of C2 on the reference driver: the hypotheses hold for its
transaction handle; a Commit on a fresh transaction succeeds with one physical
commit, and the Rollback that follows returns adapter.ErrTxClosed in an
unchanged world in which no physical rollback was ever sent. -/
theorem C2_Rollback_on_closed_tx_witness :
    (∀ ctx s, s.txClosed = true →
      (refdriver.tx refdriver.insertOne none none none).Rollback ctx s
        = (some pgx.ErrTxClosed, s)) ∧
    (∀ ctx s, ((refdriver.tx refdriver.insertOne none none none).Commit ctx s).1 = none →
      ((refdriver.tx refdriver.insertOne none none none).Commit ctx s).2.txClosed = true) ∧
    (∀ ctx s,
      ((refdriver.tx refdriver.insertOne none none none).Rollback ctx s).2.txClosed = true) ∧
    Tx.Commit (Tx.mk (some (refdriver.tx refdriver.insertOne none none none))) refdriver.ctx0
        refdriver.fresh
      = Except.ok (none, refdriver.World.mk true 1 0 0 0 0 false) ∧
    Tx.Rollback (Tx.mk (some (refdriver.tx refdriver.insertOne none none none))) refdriver.ctx0
        (refdriver.World.mk true 1 0 0 0 0 false)
      = Except.ok (some adapter.ErrTxClosed, refdriver.World.mk true 1 0 0 0 0 false) ∧
    (refdriver.World.mk true 1 0 0 0 0 false).rollbacks = 0 :=
  ⟨fun ctx s h => refdriver.tx_Rollback_closed _ _ _ _ ctx s h,
   fun ctx s h => refdriver.tx_Commit_closes _ _ _ _ ctx s h,
   fun ctx s => refdriver.tx_Rollback_closes _ _ _ _ ctx s,
   rfl,
   (C2_Rollback_on_closed_tx (refdriver.tx refdriver.insertOne none none none)
      (fun s => s.txClosed = true)
      (fun ctx s h => refdriver.tx_Rollback_closed _ _ _ _ ctx s h)
      (fun ctx s h => refdriver.tx_Commit_closes _ _ _ _ ctx s h)
      (fun ctx s => refdriver.tx_Rollback_closes _ _ _ _ ctx s)).2.1
      refdriver.ctx0 refdriver.ctx0 refdriver.fresh _ rfl,
   rfl⟩

/-- Row.Scan on a live row, in terms of the driver's answer. -/
theorem pgxv4.Row.Scan_some {σ : Type} (row : pgx.Row σ) (dest : List Dest) (s : σ) :
    Row.Scan (Row.mk (some row)) dest s
      = Except.ok (if (row.Scan dest s).1 = some pgx.ErrNoRows then some adapter.ErrNoRows
          else (row.Scan dest s).1, (row.Scan dest s).2) := by
  unfold Row.Scan
  simp only
  split <;> rfl

/-- Tx.Rollback on a live transaction, in terms of the driver's answer. -/
theorem pgxv4.Tx.Rollback_some {σ : Type} (t : pgx.Tx σ) (ctx : Context) (s : σ) :
    Tx.Rollback (Tx.mk (some t)) ctx s
      = Except.ok (if (t.Rollback ctx s).1 = some pgx.ErrTxClosed then some adapter.ErrTxClosed
          else (t.Rollback ctx s).1, (t.Rollback ctx s).2) := by
  unfold Tx.Rollback
  simp only
  split <;> rfl

/-- Counterexample to C3 as stated: on the reference driver, after a
successful Commit the transaction is closed; the driver answers a second
Commit and an Exec with pgx.ErrTxClosed, and Tx.Commit and Tx.Exec return that
driver value, not adapter.ErrTxClosed. -/
theorem C3_counterexample :
    Tx.Commit (Tx.mk (some (refdriver.tx refdriver.insertOne none none none))) refdriver.ctx0
        refdriver.fresh
      = Except.ok (none, refdriver.World.mk true 1 0 0 0 0 false) ∧
    ((refdriver.tx refdriver.insertOne none none none).Commit refdriver.ctx0
        (refdriver.World.mk true 1 0 0 0 0 false)).1 = some pgx.ErrTxClosed ∧
    Tx.Commit (Tx.mk (some (refdriver.tx refdriver.insertOne none none none))) refdriver.ctx0
        (refdriver.World.mk true 1 0 0 0 0 false)
      = Except.ok (some pgx.ErrTxClosed, refdriver.World.mk true 1 0 0 0 0 false) ∧
    Tx.Commit (Tx.mk (some (refdriver.tx refdriver.insertOne none none none))) refdriver.ctx0
        (refdriver.World.mk true 1 0 0 0 0 false)
      ≠ Except.ok (some adapter.ErrTxClosed, refdriver.World.mk true 1 0 0 0 0 false) ∧
    Tx.Exec (Tx.mk (some (refdriver.tx refdriver.insertOne none none none))) refdriver.ctx0
        "INSERT INTO t(x) VALUES($1)" [Value.int 42] (refdriver.World.mk true 1 0 0 0 0 false)
      = Except.ok ((CommandTag.mk (pgconn.CommandTag.mk "" 0), some pgx.ErrTxClosed),
          refdriver.World.mk true 1 0 0 0 0 false) ∧
    some pgx.ErrTxClosed ≠ some adapter.ErrTxClosed := by
  refine ⟨rfl, rfl, rfl, ?_, rfl, by decide⟩
  intro h
  have h2 : (Except.ok (some pgx.ErrTxClosed, refdriver.World.mk true 1 0 0 0 0 false) :
      Except Panic (Option Err × refdriver.World))
      = Except.ok (some adapter.ErrTxClosed, refdriver.World.mk true 1 0 0 0 0 false) := h
  injection h2 with h3
  injection h3 with h4 _
  exact absurd h4 (by decide)

/-- C3 (amended): the adapter normalises in exactly two places. Row.Scan
returns adapter.ErrNoRows when the driver row answers pgx.ErrNoRows, and
Tx.Rollback returns adapter.ErrTxClosed when the driver answers
pgx.ErrTxClosed. Row.Scan hands pgx.ErrTxClosed through, Tx.Rollback hands
pgx.ErrNoRows through, and Tx.Exec, Tx.Commit, Exec and Begin on Conn, PoolConn
and ConnPool, and ConnPool.Acquire return the driver's error value as it is,
the two driver sentinels included. -/
theorem C3_normalisation_only_in_Scan_and_Rollback {σ : Type} :
    (∀ (row : pgx.Row σ) dest s, (row.Scan dest s).1 = some pgx.ErrNoRows →
      Row.Scan (Row.mk (some row)) dest s
        = Except.ok (some adapter.ErrNoRows, (row.Scan dest s).2)) ∧
    (∀ (t : pgx.Tx σ) ctx s, (t.Rollback ctx s).1 = some pgx.ErrTxClosed →
      Tx.Rollback (Tx.mk (some t)) ctx s
        = Except.ok (some adapter.ErrTxClosed, (t.Rollback ctx s).2)) ∧
    (∀ (row : pgx.Row σ) dest s, (row.Scan dest s).1 = some pgx.ErrTxClosed →
      Row.Scan (Row.mk (some row)) dest s
        = Except.ok (some pgx.ErrTxClosed, (row.Scan dest s).2)) ∧
    (∀ (t : pgx.Tx σ) ctx s, (t.Rollback ctx s).1 = some pgx.ErrNoRows →
      Tx.Rollback (Tx.mk (some t)) ctx s
        = Except.ok (some pgx.ErrNoRows, (t.Rollback ctx s).2)) ∧
    (∀ (t : pgx.Tx σ) ctx s, Tx.Commit (Tx.mk (some t)) ctx s = Except.ok (t.Commit ctx s)) ∧
    (∀ (t : pgx.Tx σ) ctx sql args s, Tx.Exec (Tx.mk (some t)) ctx sql args s
      = Except.ok ((CommandTag.mk (t.Exec ctx sql args s).1.1, (t.Exec ctx sql args s).1.2),
          (t.Exec ctx sql args s).2)) ∧
    (∀ (c : pgx.Conn σ) ctx sql args s, Conn.Exec (Conn.mk (some c)) ctx sql args s
      = Except.ok ((CommandTag.mk (c.Exec ctx sql args s).1.1, (c.Exec ctx sql args s).1.2),
          (c.Exec ctx sql args s).2)) ∧
    (∀ (c : pgx.Conn σ) ctx s, Conn.Begin (Conn.mk (some c)) ctx s
      = Except.ok ((Tx.mk (c.Begin ctx s).1.1, (c.Begin ctx s).1.2), (c.Begin ctx s).2)) ∧
    (∀ (c : pgxpool.Conn σ) ctx sql args s, PoolConn.Exec (PoolConn.mk (some c)) ctx sql args s
      = Except.ok ((CommandTag.mk (c.Exec ctx sql args s).1.1, (c.Exec ctx sql args s).1.2),
          (c.Exec ctx sql args s).2)) ∧
    (∀ (c : pgxpool.Conn σ) ctx s, PoolConn.Begin (PoolConn.mk (some c)) ctx s
      = Except.ok ((Tx.mk (c.Begin ctx s).1.1, (c.Begin ctx s).1.2), (c.Begin ctx s).2)) ∧
    (∀ (p : pgxpool.Pool σ) ctx sql args s, ConnPool.Exec (ConnPool.mk (some p)) ctx sql args s
      = Except.ok ((CommandTag.mk (p.Exec ctx sql args s).1.1, (p.Exec ctx sql args s).1.2),
          (p.Exec ctx sql args s).2)) ∧
    (∀ (p : pgxpool.Pool σ) ctx s, ConnPool.Begin (ConnPool.mk (some p)) ctx s
      = Except.ok ((Tx.mk (p.Begin ctx s).1.1, (p.Begin ctx s).1.2), (p.Begin ctx s).2)) ∧
    (∀ (p : pgxpool.Pool σ) ctx s, ConnPool.Acquire (ConnPool.mk (some p)) ctx s
      = Except.ok ((AdapterConn.poolConn (PoolConn.mk (p.Acquire ctx s).1.1),
          (p.Acquire ctx s).1.2), (p.Acquire ctx s).2)) := by
  refine ⟨?_, ?_, ?_, ?_, ?_, ?_, ?_, ?_, ?_, ?_, ?_, ?_, ?_⟩
  · intro row dest s h
    rw [pgxv4.Row.Scan_some, if_pos h]
  · intro t ctx s h
    rw [pgxv4.Tx.Rollback_some, if_pos h]
  · intro row dest s h
    rw [pgxv4.Row.Scan_some, if_neg (by rw [h]; decide), h]
  · intro t ctx s h
    rw [pgxv4.Tx.Rollback_some, if_neg (by rw [h]; decide), h]
  all_goals intros; rfl

/-- Instance of the amended C3 on the reference driver: a closed transaction
handle answers Rollback with pgx.ErrTxClosed, and Tx.Rollback returns
adapter.ErrTxClosed. -/
theorem C3_normalisation_only_in_Scan_and_Rollback_witness :
    ((refdriver.tx refdriver.insertOne none none none).Rollback refdriver.ctx0
        (refdriver.World.mk true 1 0 0 0 0 false)).1 = some pgx.ErrTxClosed ∧
    Tx.Rollback (Tx.mk (some (refdriver.tx refdriver.insertOne none none none))) refdriver.ctx0
        (refdriver.World.mk true 1 0 0 0 0 false)
      = Except.ok (some adapter.ErrTxClosed,
          ((refdriver.tx refdriver.insertOne none none none).Rollback refdriver.ctx0
            (refdriver.World.mk true 1 0 0 0 0 false)).2) :=
  ⟨rfl, (@C3_normalisation_only_in_Scan_and_Rollback refdriver.World).2.1
    (refdriver.tx refdriver.insertOne none none none) refdriver.ctx0
    (refdriver.World.mk true 1 0 0 0 0 false) rfl⟩

/-- C4: let e be a driver result that is neither pgx.ErrNoRows nor
pgx.ErrTxClosed (nil included). Whenever the driver call underneath an
adapter operation answers e, the operation returns exactly e: Row.Scan,
Tx.Rollback, Tx.Commit, Tx.Exec, Exec, Begin and Close on Conn, Exec and Begin
on PoolConn, and Exec, Begin and Acquire on ConnPool. In particular Row.Scan
returns the driver's result whenever it is not pgx.ErrNoRows, and
Tx.Rollback returns the driver's result whenever it is not pgx.ErrTxClosed.
(PoolConn.Close, ConnPool.Release, ConnPool.Stat and ConnPool.Close sit on
driver calls that have no error result.) -/
theorem C4_other_errors_pass_through {σ : Type} (e : Option Err)
    (hNoRows : e ≠ some pgx.ErrNoRows) (hTxClosed : e ≠ some pgx.ErrTxClosed) :
    (∀ (row : pgx.Row σ) dest s, (row.Scan dest s).1 = e →
      Row.Scan (Row.mk (some row)) dest s = Except.ok (e, (row.Scan dest s).2)) ∧
    (∀ (t : pgx.Tx σ) ctx s, (t.Rollback ctx s).1 = e →
      Tx.Rollback (Tx.mk (some t)) ctx s = Except.ok (e, (t.Rollback ctx s).2)) ∧
    (∀ (t : pgx.Tx σ) ctx s, (t.Commit ctx s).1 = e →
      Tx.Commit (Tx.mk (some t)) ctx s = Except.ok (e, (t.Commit ctx s).2)) ∧
    (∀ (t : pgx.Tx σ) ctx sql args s, (t.Exec ctx sql args s).1.2 = e →
      Tx.Exec (Tx.mk (some t)) ctx sql args s
        = Except.ok ((CommandTag.mk (t.Exec ctx sql args s).1.1, e),
            (t.Exec ctx sql args s).2)) ∧
    (∀ (c : pgx.Conn σ) ctx sql args s, (c.Exec ctx sql args s).1.2 = e →
      Conn.Exec (Conn.mk (some c)) ctx sql args s
        = Except.ok ((CommandTag.mk (c.Exec ctx sql args s).1.1, e),
            (c.Exec ctx sql args s).2)) ∧
    (∀ (c : pgx.Conn σ) ctx s, (c.Begin ctx s).1.2 = e →
      Conn.Begin (Conn.mk (some c)) ctx s
        = Except.ok ((Tx.mk (c.Begin ctx s).1.1, e), (c.Begin ctx s).2)) ∧
    (∀ (c : pgx.Conn σ) ctx s, (c.Close ctx s).1 = e →
      Conn.Close (Conn.mk (some c)) ctx s = Except.ok (e, (c.Close ctx s).2)) ∧
    (∀ (c : pgxpool.Conn σ) ctx sql args s, (c.Exec ctx sql args s).1.2 = e →
      PoolConn.Exec (PoolConn.mk (some c)) ctx sql args s
        = Except.ok ((CommandTag.mk (c.Exec ctx sql args s).1.1, e),
            (c.Exec ctx sql args s).2)) ∧
    (∀ (c : pgxpool.Conn σ) ctx s, (c.Begin ctx s).1.2 = e →
      PoolConn.Begin (PoolConn.mk (some c)) ctx s
        = Except.ok ((Tx.mk (c.Begin ctx s).1.1, e), (c.Begin ctx s).2)) ∧
    (∀ (p : pgxpool.Pool σ) ctx sql args s, (p.Exec ctx sql args s).1.2 = e →
      ConnPool.Exec (ConnPool.mk (some p)) ctx sql args s
        = Except.ok ((CommandTag.mk (p.Exec ctx sql args s).1.1, e),
            (p.Exec ctx sql args s).2)) ∧
    (∀ (p : pgxpool.Pool σ) ctx s, (p.Begin ctx s).1.2 = e →
      ConnPool.Begin (ConnPool.mk (some p)) ctx s
        = Except.ok ((Tx.mk (p.Begin ctx s).1.1, e), (p.Begin ctx s).2)) ∧
    (∀ (p : pgxpool.Pool σ) ctx s, (p.Acquire ctx s).1.2 = e →
      ConnPool.Acquire (ConnPool.mk (some p)) ctx s
        = Except.ok ((AdapterConn.poolConn (PoolConn.mk (p.Acquire ctx s).1.1), e),
            (p.Acquire ctx s).2)) ∧
    (∀ (row : pgx.Row σ) dest s, (row.Scan dest s).1 ≠ some pgx.ErrNoRows →
      Row.Scan (Row.mk (some row)) dest s = Except.ok (row.Scan dest s)) ∧
    (∀ (t : pgx.Tx σ) ctx s, (t.Rollback ctx s).1 ≠ some pgx.ErrTxClosed →
      Tx.Rollback (Tx.mk (some t)) ctx s = Except.ok (t.Rollback ctx s)) := by
  refine ⟨?_, ?_, ?_, ?_, ?_, ?_, ?_, ?_, ?_, ?_, ?_, ?_, ?_, ?_⟩
  · intro row dest s h
    rw [pgxv4.Row.Scan_some, if_neg (by rw [h]; exact hNoRows), h]
  · intro t ctx s h
    rw [pgxv4.Tx.Rollback_some, if_neg (by rw [h]; exact hTxClosed), h]
  · intro t ctx s h
    rw [← h]; rfl
  · intro t ctx sql args s h
    rw [← h]; rfl
  · intro c ctx sql args s h
    rw [← h]; rfl
  · intro c ctx s h
    rw [← h]; rfl
  · intro c ctx s h
    rw [← h]; rfl
  · intro c ctx sql args s h
    rw [← h]; rfl
  · intro c ctx s h
    rw [← h]; rfl
  · intro p ctx sql args s h
    rw [← h]; rfl
  · intro p ctx s h
    rw [← h]; rfl
  · intro p ctx s h
    rw [← h]; rfl
  · intro row dest s h
    rw [pgxv4.Row.Scan_some, if_neg h]
  · intro t ctx s h
    rw [pgxv4.Tx.Rollback_some, if_neg h]

/-- Instance of C4 on the reference driver, with a lost-connection error:
a row whose Scan fails with it and a transaction whose physical rollback
fails with it; Row.Scan and Tx.Rollback return that very error. -/
theorem C4_other_errors_pass_through_witness :
    some refdriver.connLost ≠ some pgx.ErrNoRows ∧
    some refdriver.connLost ≠ some pgx.ErrTxClosed ∧
    Row.Scan (Row.mk (some (refdriver.row (some refdriver.connLost)))) [Dest.mk 0]
        refdriver.fresh
      = Except.ok (some refdriver.connLost, refdriver.fresh) ∧
    Tx.Rollback (Tx.mk (some (refdriver.tx refdriver.insertOne none none
        (some refdriver.connLost)))) refdriver.ctx0 refdriver.fresh
      = Except.ok (some refdriver.connLost, refdriver.World.mk true 0 1 0 0 0 false) :=
  ⟨by decide, by decide,
   (@C4_other_errors_pass_through refdriver.World (some refdriver.connLost)
      (by decide) (by decide)).1
      (refdriver.row (some refdriver.connLost)) [Dest.mk 0] refdriver.fresh rfl,
   (@C4_other_errors_pass_through refdriver.World (some refdriver.connLost)
      (by decide) (by decide)).2.1
      (refdriver.tx refdriver.insertOne none none (some refdriver.connLost))
      refdriver.ctx0 refdriver.fresh rfl⟩

/-- Counterexample to C5 as stated: a context need not hold a driver object.
When the driver's Begin fails, Conn.Begin returns, next to the error, a Tx
around a nil driver transaction; when the driver's Acquire fails,
ConnPool.Acquire returns a PoolConn around a nil pooled connection. QueryRow
on either of them panics with a nil dereference instead of returning a Row. -/
theorem C5_counterexample :
    Conn.Begin (Conn.mk (some (refdriver.conn refdriver.insertOne none none
        (some refdriver.connLost) none))) refdriver.ctx0 refdriver.quiet
      = Except.ok ((Tx.mk none, some refdriver.connLost), refdriver.quiet) ∧
    Tx.QueryRow (Tx.mk none) refdriver.ctx0 "SELECT x FROM t WHERE id=$1" [Value.int 999]
        refdriver.quiet
      = Except.error Panic.nilDereference ∧
    ConnPool.Acquire (ConnPool.mk (some (refdriver.pool (pgxpool.Stat.mk 10 5 3 2)
        refdriver.insertOne none none none (some refdriver.connLost)))) refdriver.ctx0
        refdriver.quiet
      = Except.ok ((AdapterConn.poolConn (PoolConn.mk none), some refdriver.connLost),
          refdriver.quiet) ∧
    PoolConn.QueryRow (PoolConn.mk none) refdriver.ctx0 "SELECT x FROM t WHERE id=$1"
        [Value.int 999] refdriver.quiet
      = Except.error Panic.nilDereference :=
  ⟨rfl, rfl, rfl, rfl⟩

/-- C5 (amended): QueryRow on a Tx, Conn, PoolConn or ConnPool that holds a
driver object (its handle is not nil) does not fail: for every SQL text and
arguments it returns a Row (the result carries no error) wrapping the row of
the driver's QueryRow, and its only effect is the driver's. A query error
shows only when Scan is called on that Row: Scan returns adapter.ErrNoRows
when the driver row's Scan answers pgx.ErrNoRows, and the driver row's answer
otherwise. -/
theorem C5_QueryRow_defers_errors_to_Scan {σ : Type} :
    (∀ (t : pgx.Tx σ) ctx sql args s,
      Tx.QueryRow (Tx.mk (some t)) ctx sql args s
        = Except.ok (Row.mk (some (t.QueryRow ctx sql args s).1),
            (t.QueryRow ctx sql args s).2)) ∧
    (∀ (c : pgx.Conn σ) ctx sql args s,
      Conn.QueryRow (Conn.mk (some c)) ctx sql args s
        = Except.ok (Row.mk (some (c.QueryRow ctx sql args s).1),
            (c.QueryRow ctx sql args s).2)) ∧
    (∀ (c : pgxpool.Conn σ) ctx sql args s,
      PoolConn.QueryRow (PoolConn.mk (some c)) ctx sql args s
        = Except.ok (Row.mk (some (c.QueryRow ctx sql args s).1),
            (c.QueryRow ctx sql args s).2)) ∧
    (∀ (p : pgxpool.Pool σ) ctx sql args s,
      ConnPool.QueryRow (ConnPool.mk (some p)) ctx sql args s
        = Except.ok (Row.mk (some (p.QueryRow ctx sql args s).1),
            (p.QueryRow ctx sql args s).2)) ∧
    (∀ (row : pgx.Row σ) dest s,
      Row.Scan (Row.mk (some row)) dest s
        = Except.ok (if (row.Scan dest s).1 = some pgx.ErrNoRows then some adapter.ErrNoRows
            else (row.Scan dest s).1, (row.Scan dest s).2)) := by
  refine ⟨?_, ?_, ?_, ?_, ?_⟩
  · intros; rfl
  · intros; rfl
  · intros; rfl
  · intros; rfl
  · intro row dest s
    exact pgxv4.Row.Scan_some row dest s

/-- C7: when the driver's total and idle counts are connection counts (not
negative, within int32), ConnPool.Stat returns the driver's MaxConns as
MaxConnections, its TotalConns as CurrentConnections, and TotalConns minus
IdleConns as AvailableConnections, all read from the one snapshot the driver's
Stat gives for the current state. -/
theorem C7_Stat_fields {σ : Type} (p : pgxpool.Pool σ) (s : σ)
    (hTotal : 0 ≤ (p.Stat s).TotalConns ∧ IsInt32 (p.Stat s).TotalConns)
    (hIdle : 0 ≤ (p.Stat s).IdleConns ∧ IsInt32 (p.Stat s).IdleConns) :
    ConnPool.Stat (ConnPool.mk (some p)) s
      = Except.ok (adapter.ConnPoolStat.mk (p.Stat s).MaxConns (p.Stat s).TotalConns
          ((p.Stat s).TotalConns - (p.Stat s).IdleConns)) := by
  have hw : int32 ((p.Stat s).TotalConns - (p.Stat s).IdleConns)
      = (p.Stat s).TotalConns - (p.Stat s).IdleConns := by
    unfold IsInt32 at hTotal hIdle
    unfold int32
    omega
  simp [ConnPool.Stat, hw]

/-- Instance of C7 on the reference driver: a pool of at most 10 connections
with 5 established, 3 of them idle and 2 checked out. -/
theorem C7_Stat_fields_witness :
    (0 ≤ (pgxpool.Stat.mk 10 5 3 2).TotalConns ∧ IsInt32 (pgxpool.Stat.mk 10 5 3 2).TotalConns) ∧
    (0 ≤ (pgxpool.Stat.mk 10 5 3 2).IdleConns ∧ IsInt32 (pgxpool.Stat.mk 10 5 3 2).IdleConns) ∧
    ConnPool.Stat (ConnPool.mk (some (refdriver.pool (pgxpool.Stat.mk 10 5 3 2)
        refdriver.insertOne none none none none))) refdriver.fresh
      = Except.ok (adapter.ConnPoolStat.mk 10 5 (5 - 3)) :=
  ⟨by decide, by decide,
   C7_Stat_fields (refdriver.pool (pgxpool.Stat.mk 10 5 3 2) refdriver.insertOne none none none
     none) refdriver.fresh (by decide) (by decide)⟩

/-- Counterexample to C8 as stated. First, a PoolConn need not hold a pooled
connection: when the driver's Acquire fails, ConnPool.Acquire returns a
PoolConn around nil, and Close on it panics instead of returning a nil error.
Second, the release can terminate the physical connection: on the reference
driver, once the pool has been closed, Close on a checked-out connection
releases it and the connection is destroyed. -/
theorem C8_counterexample :
    ConnPool.Acquire (ConnPool.mk (some (refdriver.pool (pgxpool.Stat.mk 10 5 3 2)
        refdriver.insertOne none none none (some refdriver.connLost)))) refdriver.ctx0
        refdriver.quiet
      = Except.ok ((AdapterConn.poolConn (PoolConn.mk none), some refdriver.connLost),
          refdriver.quiet) ∧
    PoolConn.Close (PoolConn.mk none) refdriver.ctx0 refdriver.quiet
      = Except.error Panic.nilDereference ∧
    ConnPool.Close (ConnPool.mk (some (refdriver.pool (pgxpool.Stat.mk 10 5 3 2)
        refdriver.insertOne none none none none))) refdriver.quiet
      = Except.ok ((), refdriver.World.mk true 0 0 0 0 0 true) ∧
    PoolConn.Close (PoolConn.mk (some (refdriver.poolConn refdriver.insertOne none none none)))
        refdriver.ctx0 (refdriver.World.mk true 0 0 0 0 0 true)
      = Except.ok (none, refdriver.World.mk true 0 0 0 1 1 true) ∧
    (refdriver.World.mk true 0 0 0 1 1 true).terminations = 1 :=
  ⟨rfl, rfl, rfl, rfl, rfl⟩

/-- C8 (amended): PoolConn.Close on a PoolConn that holds a pooled connection
does exactly one thing: it calls the pooled connection's Release once, and it
returns a nil error; what the release does to the physical connection is the
driver's decision. Conn.Close on a Conn that holds a connection calls the
driver's Close and returns the driver's error as it is. On the reference
driver, which counts Release calls and terminations of the physical
connection: while the pool is open and no transaction is open,
PoolConn.Close adds one release and no termination; once the pool is closed it
adds one release and one termination; Conn.Close adds one termination. -/
theorem C8_Close_release_versus_terminate {σ : Type} :
    (∀ (c : pgxpool.Conn σ) ctx s,
      PoolConn.Close (PoolConn.mk (some c)) ctx s = Except.ok (none, c.Release s)) ∧
    (∀ (c : pgx.Conn σ) ctx s,
      Conn.Close (Conn.mk (some c)) ctx s = Except.ok (c.Close ctx s)) ∧
    (∀ tag e1 e2 e3 ctx (w : refdriver.World), w.poolClosed = false → w.txClosed = true →
      PoolConn.Close (PoolConn.mk (some (refdriver.poolConn tag e1 e2 e3))) ctx w
        = Except.ok (none, refdriver.World.mk w.txClosed w.commits w.rollbacks w.statements
            (w.releases + 1) w.terminations w.poolClosed)) ∧
    (∀ tag e1 e2 e3 ctx (w : refdriver.World), w.poolClosed = true →
      PoolConn.Close (PoolConn.mk (some (refdriver.poolConn tag e1 e2 e3))) ctx w
        = Except.ok (none, refdriver.World.mk w.txClosed w.commits w.rollbacks w.statements
            (w.releases + 1) (w.terminations + 1) w.poolClosed)) ∧
    (∀ tag e1 e2 e3 closeReply ctx (w : refdriver.World),
      Conn.Close (Conn.mk (some (refdriver.conn tag e1 e2 e3 closeReply))) ctx w
        = Except.ok (closeReply, refdriver.World.mk w.txClosed w.commits w.rollbacks
            w.statements w.releases (w.terminations + 1) w.poolClosed)) := by
  refine ⟨?_, ?_, ?_, ?_, ?_⟩
  · intros; rfl
  · intros; rfl
  · intro tag e1 e2 e3 ctx w hPool hTx
    simp [PoolConn.Close, refdriver.poolConn, hPool, hTx]
  · intro tag e1 e2 e3 ctx w hPool
    simp [PoolConn.Close, refdriver.poolConn, hPool]
  · intros; rfl

/-- Instance of the amended C8 on the reference driver: in the quiet world
(pool open, no transaction open) Close on a checked-out connection adds one
release and terminates nothing. -/
theorem C8_Close_release_versus_terminate_witness :
    refdriver.quiet.poolClosed = false ∧ refdriver.quiet.txClosed = true ∧
    PoolConn.Close (PoolConn.mk (some (refdriver.poolConn refdriver.insertOne none none none)))
        refdriver.ctx0 refdriver.quiet
      = Except.ok (none, refdriver.World.mk refdriver.quiet.txClosed refdriver.quiet.commits
          refdriver.quiet.rollbacks refdriver.quiet.statements (refdriver.quiet.releases + 1)
          refdriver.quiet.terminations refdriver.quiet.poolClosed) :=
  ⟨rfl, rfl,
   (@C8_Close_release_versus_terminate refdriver.World).2.2.1 refdriver.insertOne none none none
     refdriver.ctx0 refdriver.quiet rfl rfl⟩

/-- C9: Exec on a Tx, Conn, PoolConn or ConnPool returns a CommandTag whose
RowsAffected is the count the driver's own command tag reports; RowsAffected
is a plain function of the tag and has no error result. On the reference
driver, the tag of an INSERT of one row gives 1 and the tag of a CREATE TABLE
gives 0. -/
theorem C9_RowsAffected_is_the_driver_count {σ : Type} :
    (∀ ct : pgconn.CommandTag, (CommandTag.mk ct).RowsAffected = ct.RowsAffected) ∧
    (∀ (t : pgx.Tx σ) ctx sql args s, ∃ ct err s1,
      Tx.Exec (Tx.mk (some t)) ctx sql args s = Except.ok ((ct, err), s1) ∧
      ct.RowsAffected = (t.Exec ctx sql args s).1.1.RowsAffected) ∧
    (∀ (c : pgx.Conn σ) ctx sql args s, ∃ ct err s1,
      Conn.Exec (Conn.mk (some c)) ctx sql args s = Except.ok ((ct, err), s1) ∧
      ct.RowsAffected = (c.Exec ctx sql args s).1.1.RowsAffected) ∧
    (∀ (c : pgxpool.Conn σ) ctx sql args s, ∃ ct err s1,
      PoolConn.Exec (PoolConn.mk (some c)) ctx sql args s = Except.ok ((ct, err), s1) ∧
      ct.RowsAffected = (c.Exec ctx sql args s).1.1.RowsAffected) ∧
    (∀ (p : pgxpool.Pool σ) ctx sql args s, ∃ ct err s1,
      ConnPool.Exec (ConnPool.mk (some p)) ctx sql args s = Except.ok ((ct, err), s1) ∧
      ct.RowsAffected = (p.Exec ctx sql args s).1.1.RowsAffected) ∧
    (ConnPool.Exec (ConnPool.mk (some (refdriver.pool (pgxpool.Stat.mk 10 5 3 2)
        refdriver.insertOne none none none none))) refdriver.ctx0
        "INSERT INTO t(x) VALUES($1)" [Value.int 42] refdriver.fresh).map
      (fun r => r.1.1.RowsAffected) = Except.ok 1 ∧
    (ConnPool.Exec (ConnPool.mk (some (refdriver.pool (pgxpool.Stat.mk 10 5 3 2)
        refdriver.createTable none none none none))) refdriver.ctx0
        "CREATE TABLE t(x int)" [] refdriver.fresh).map
      (fun r => r.1.1.RowsAffected) = Except.ok 0 := by
  refine ⟨fun _ => rfl, ?_, ?_, ?_, ?_, rfl, rfl⟩
  · intro t ctx sql args s
    exact ⟨_, _, _, rfl, rfl⟩
  · intro c ctx sql args s
    exact ⟨_, _, _, rfl, rfl⟩
  · intro c ctx sql args s
    exact ⟨_, _, _, rfl, rfl⟩
  · intro p ctx sql args s
    exact ⟨_, _, _, rfl, rfl⟩

/-- C10: let the driver's Acquire succeed, handing out the pooled connection
d with a nil error. Then ConnPool.Acquire returns a Conn holding a PoolConn
around d, and for that Conn ConnPool.Release does not panic and has exactly
the effect of the Conn's own Close: one Release of d. Whatever Acquire
returns, Release never fails on its type assertion. For a Conn built by
NewConn the type assertion fails. -/
theorem C10_Release_of_acquired_Conn {σ : Type} (p : pgxpool.Pool σ) (d : pgxpool.Conn σ)
    (ctx : Context) (s s1 : σ) (hAcquire : p.Acquire ctx s = ((some d, none), s1)) :
    ConnPool.Acquire (ConnPool.mk (some p)) ctx s
      = Except.ok ((AdapterConn.poolConn (PoolConn.mk (some d)), none), s1) ∧
    (∀ (pool : ConnPool σ) s2,
      ConnPool.Release pool (AdapterConn.poolConn (PoolConn.mk (some d))) s2
        = Except.ok ((), d.Release s2)) ∧
    (∀ ctx1 s2, PoolConn.Close (PoolConn.mk (some d)) ctx1 s2 = Except.ok (none, d.Release s2)) ∧
    (∀ (q : pgxpool.Pool σ) ctx1 s2 conn e s3 (pool : ConnPool σ) s4,
      ConnPool.Acquire (ConnPool.mk (some q)) ctx1 s2 = Except.ok ((conn, e), s3) →
      ConnPool.Release pool conn s4 ≠ Except.error Panic.typeAssertion) ∧
    (∀ (pool : ConnPool σ) (c : Option (pgx.Conn σ)) s2,
      ConnPool.Release pool (NewConn c) s2 = Except.error Panic.typeAssertion) := by
  refine ⟨?_, ?_, ?_, ?_, ?_⟩
  · simp [ConnPool.Acquire, hAcquire]
  · intros; rfl
  · intros; rfl
  · intro q ctx1 s2 conn e s3 pool s4 h
    have hc : conn = AdapterConn.poolConn (PoolConn.mk (q.Acquire ctx1 s2).1.1) := by
      unfold ConnPool.Acquire at h
      simp only at h
      injection h with h1
      have h2 := (Prod.mk.inj (Prod.mk.inj h1).1).1
      exact h2.symm
    rw [hc]
    unfold ConnPool.Release
    simp only
    split <;> simp
  · intros; rfl

/-- Instance of C10 on the reference driver: Acquire succeeds, and releasing
the acquired Conn through the pool adds one release to the world. -/
theorem C10_Release_of_acquired_Conn_witness :
    (refdriver.pool (pgxpool.Stat.mk 10 5 3 2) refdriver.insertOne none none none none).Acquire
        refdriver.ctx0 refdriver.fresh
      = ((some (refdriver.poolConn refdriver.insertOne none none none), none),
          refdriver.fresh) ∧
    ConnPool.Release (ConnPool.mk (some (refdriver.pool (pgxpool.Stat.mk 10 5 3 2)
        refdriver.insertOne none none none none)))
        (AdapterConn.poolConn (PoolConn.mk (some (refdriver.poolConn refdriver.insertOne
          none none none)))) refdriver.fresh
      = Except.ok ((), (refdriver.poolConn refdriver.insertOne none none none).Release
          refdriver.fresh) ∧
    ((refdriver.poolConn refdriver.insertOne none none none).Release refdriver.fresh).releases
      = 1 :=
  ⟨rfl,
   (C10_Release_of_acquired_Conn
      (refdriver.pool (pgxpool.Stat.mk 10 5 3 2) refdriver.insertOne none none none none)
      (refdriver.poolConn refdriver.insertOne none none none)
      refdriver.ctx0 refdriver.fresh refdriver.fresh rfl).2.1 _ refdriver.fresh,
   rfl⟩

/-- What ConnPool.Stat reports as AvailableConnections, on a snapshot in which
every established connection is either idle or checked out: the number of
connections checked out. -/
theorem pgxv4.ConnPool.Stat_available_is_acquired {σ : Type} (p : pgxpool.Pool σ) (s : σ)
    (hIdle : 0 ≤ (p.Stat s).IdleConns) (hAcquired : 0 ≤ (p.Stat s).AcquiredConns)
    (hTotal : IsInt32 (p.Stat s).TotalConns)
    (hSum : (p.Stat s).TotalConns = (p.Stat s).IdleConns + (p.Stat s).AcquiredConns) :
    ConnPool.Stat (ConnPool.mk (some p)) s
      = Except.ok (adapter.ConnPoolStat.mk (p.Stat s).MaxConns (p.Stat s).TotalConns
          (p.Stat s).AcquiredConns) := by
  have hw : int32 ((p.Stat s).TotalConns - (p.Stat s).IdleConns) = (p.Stat s).AcquiredConns := by
    unfold IsInt32 at hTotal
    unfold int32
    omega
  simp [ConnPool.Stat, hw]

/-- C6, evaluated: a quiescent pool of at most 10 connections with 5
established, 3 idle and 2 checked out. ConnPool.Stat reports
AvailableConnections = 2, the number of connections checked out, so
AvailableConnections plus the busy connections is 4 while CurrentConnections
is 5. -/
theorem C6_Stat_available_plus_busy_evaluated :
    (pgxpool.Stat.mk 10 5 3 2).TotalConns
      = (pgxpool.Stat.mk 10 5 3 2).IdleConns + (pgxpool.Stat.mk 10 5 3 2).AcquiredConns ∧
    ConnPool.Stat (ConnPool.mk (some (refdriver.pool (pgxpool.Stat.mk 10 5 3 2)
        refdriver.insertOne none none none none))) refdriver.fresh
      = Except.ok (adapter.ConnPoolStat.mk 10 5 2) ∧
    (adapter.ConnPoolStat.mk 10 5 2).AvailableConnections
        + (pgxpool.Stat.mk 10 5 3 2).AcquiredConns = 4 ∧
    (adapter.ConnPoolStat.mk 10 5 2).AvailableConnections
        + (pgxpool.Stat.mk 10 5 3 2).AcquiredConns
      ≠ (adapter.ConnPoolStat.mk 10 5 2).CurrentConnections := by
  refine ⟨by decide, rfl, by decide, by decide⟩
